import Mathlib

/-!
Verification of the cache module of cloudflare-dyndns
(`cloudflare_dyndns/cache.py`).

The module persists a `Cache` (two per-family `IPCache` entries, each an
optional address plus a map from domain to `ZoneRecord`) to a single file
path, with corruption recovery.  We embed the data model, the JSON
(de)serialization performed by the pydantic v1 models (`parse_raw` /
`.json()`), and the `CacheManager` operations `load`, `_load`, `save`,
`delete` as pure functions over an explicit model of the file at the
configured path.
-/

/-- A JSON value, as produced by a JSON parser: object fields are listed in
order and never contain duplicate keys when they come from parsed text. -/
inductive Json where
  | null : Json
  | bool (b : Bool) : Json
  | num (n : Int) : Json
  | str (s : String) : Json
  | arr (xs : List Json) : Json
  | obj (fields : List (String × Json)) : Json

/-- The content of the cache file: either text that is not valid JSON at all
(corrupted bytes, wrong encoding, empty file), or a parsed JSON document. -/
inductive Content where
  | junk : Content
  | json (j : Json) : Content

/-- State of the file at the manager's configured path.  `unreadable` models
a file that exists but whose `read_text` raises an `OSError` other than
`FileNotFoundError` (e.g. `PermissionError`). -/
inductive FileState where
  | absent : FileState
  | present (c : Content) : FileState
  | unreadable : FileState

/-- Outcome classes of `Path.read_text`. -/
inductive ReadErr where
  | fileNotFound : ReadErr
  | ioError : ReadErr

/-- `Path.read_text` on the managed file. -/
def readText : FileState → Except ReadErr Content
  | .absent => .error .fileNotFound
  | .present c => .ok c
  | .unreadable => .error .ioError

/-- Modelled from the spec: `IPAddress` is defined in
`cloudflare_dyndns/types.py`, which is not among the sources; per the spec it
is "an address plus its family (v4 or v6)" whose "textual form must parse as
a valid address of the claimed family; construction fails otherwise".  We
model the syntactic check over the textual form. -/
def isIPv4Octet (s : String) : Bool :=
  !s.isEmpty && s.length ≤ 3 && s.all Char.isDigit && (s.toNat?.getD 256) ≤ 255

/-- A dotted-quad IPv4 textual form. -/
def isIPv4 (s : String) : Bool :=
  let parts := s.splitOn "."
  parts.length == 4 && parts.all isIPv4Octet

/-- A hexadecimal digit. -/
def isHexDigitChar (c : Char) : Bool :=
  c.isDigit || (97 ≤ c.toNat && c.toNat ≤ 102) || (65 ≤ c.toNat && c.toNat ≤ 70)

/-- A group of at most four hexadecimal digits. -/
def isHexGroup (s : String) : Bool :=
  s.length ≤ 4 && s.all isHexDigitChar

/-- A colon-separated IPv6 textual form: eight full groups, or at most eight
groups with a single "::" elision. -/
def isIPv6 (s : String) : Bool :=
  let parts := s.splitOn ":"
  parts.all isHexGroup &&
    ((parts.length == 8 && parts.all (fun p => !p.isEmpty)) ||
     (parts.length ≤ 8 && (s.splitOn "::").length == 2))

/-- Modelled from the spec: a textual form valid for one of the two
families. -/
def validIP (s : String) : Bool :=
  isIPv4 s || isIPv6 s

/-- Modelled from the spec: an `IPAddress` value is a textual form that
passed validation at construction time. -/
def IPAddress : Type := { s : String // validIP s = true }

/-- `ZoneRecord(BaseModel)`: `zone_id: str`, `record_id: str`,
`proxied: bool = False`. -/
structure ZoneRecord where
  zone_id : String
  record_id : String
  proxied : Bool

/-- `IPCache(BaseModel)`: `address: Optional[IPAddress] = None`,
`updated_domains: Dict[str, ZoneRecord] = dict()`.  The dict is modelled as
an association list in insertion order. -/
structure IPCache where
  address : Option IPAddress
  updated_domains : List (String × ZoneRecord)

/-- `IPCache()`: the all-default entry. -/
def IPCache.empty : IPCache :=
  { address := none, updated_domains := [] }

/-- `IPCache.clear`: sets `address = None` and `updated_domains = dict()`. -/
def IPCache.clear (_ : IPCache) : IPCache :=
  { address := none, updated_domains := [] }

/-- `Cache(BaseModel)`: `ipv4 = IPCache()`, `ipv6 = IPCache()` — two fields
whose type is inferred from the default, hence optional with default on
parsing (pydantic v1). -/
structure Cache where
  ipv4 : IPCache
  ipv6 : IPCache

/-- `Cache()`: the fresh all-empty cache. -/
def Cache.empty : Cache :=
  { ipv4 := IPCache.empty, ipv6 := IPCache.empty }

/-- Field lookup in a JSON object, first match wins (parsed JSON objects
carry no duplicate keys). -/
def jlookup (key : String) : List (String × Json) → Option Json
  | [] => none
  | (k, v) :: rest => if k == key then some v else jlookup key rest

/-- Serialization of a `ZoneRecord` by pydantic's `.json()`: every field is
emitted, in declaration order. -/
def ZoneRecord.toJson (zr : ZoneRecord) : Json :=
  .obj [("zone_id", .str zr.zone_id), ("record_id", .str zr.record_id),
        ("proxied", .bool zr.proxied)]

/-- Serialization of an `IPCache`: a missing address is emitted as `null`,
an `IPAddress` as its textual form. -/
def IPCache.toJson (ic : IPCache) : Json :=
  .obj [("address", match ic.address with
          | none => .null
          | some a => .str a.val),
        ("updated_domains",
          .obj (ic.updated_domains.map fun p => (p.1, ZoneRecord.toJson p.2)))]

/-- Serialization of the full `Cache`. -/
def Cache.toJson (c : Cache) : Json :=
  .obj [("ipv4", c.ipv4.toJson), ("ipv6", c.ipv6.toJson)]

/-- `cache.json()`: the file content written by `save`. -/
def Cache.json (c : Cache) : Content :=
  .json c.toJson

/-- One element of an iterable converted by python's `dict()`: it must be a
sequence of two items — a two-character string, or a two-element array whose
first component is hashable (arrays and objects are unhashable). -/
def pairOf : Json → Except Unit (Json × Json)
  | .str s => if s.length == 2 then .ok (.str (s.take 1), .str (s.drop 1)) else .error ()
  | .arr [k, v] =>
    match k with
    | .arr _ => .error ()
    | .obj _ => .error ()
    | _ => .ok (k, v)
  | _ => .error ()

/-- All elements of a list converted to key/value pairs, failing when any
element is not a pair. -/
def pairsOf : List Json → Except Unit (List (Json × Json))
  | [] => .ok []
  | x :: rest =>
    match pairOf x, pairsOf rest with
    | .ok p, .ok ps => .ok (p :: ps)
    | .error e, _ => .error e
    | _, .error e => .error e

/-- Python `dict(value)` applied to a decoded JSON value — the fallback
pydantic v1 uses in `parse_obj`, `Model.validate` and `dict_validator` when
the value is not already a dict: a dict passes through, the empty string and
the empty array convert to the empty dict, a non-empty array must consist of
key/value pairs, and everything else raises `TypeError`/`ValueError`. -/
def asPairs : Json → Except Unit (List (Json × Json))
  | .obj fields => .ok (fields.map fun p => (Json.str p.1, p.2))
  | .str s => if s.isEmpty then .ok [] else .error ()
  | .arr xs => pairsOf xs
  | _ => .error ()

/-- Keyword expansion `cls(**d)` requires every key to be a string; any
other key raises. -/
def strKeys : List (Json × Json) → Option (List (String × Json))
  | [] => some []
  | (.str k, v) :: rest => (strKeys rest).map fun t => (k, v) :: t
  | _ => none

/-- Insertion with python-dict semantics: an existing key keeps its first
position and takes the new value. -/
def dictInsert (k : String) (v : Json) : List (String × Json) → List (String × Json)
  | [] => [(k, v)]
  | (k2, v2) :: rest =>
    if k2 == k then (k2, v) :: rest else (k2, v2) :: dictInsert k v rest

/-- A python dict built from a pair sequence: per duplicated key, first
position and last value.  Decoded JSON objects never carry duplicates, so on
them this is the identity. -/
def dictOf (ps : List (String × Json)) : List (String × Json) :=
  ps.foldl (fun acc p => dictInsert p.1 p.2 acc) []

/-- The dict a pydantic v1 model is built from: the `dict(value)` fallback,
then `cls(**d)`, whose keyword expansion rejects non-string keys. -/
def modelFields (j : Json) : Except Unit (List (String × Json)) :=
  match asPairs j with
  | .error e => .error e
  | .ok prs =>
    match strKeys prs with
    | none => .error ()
    | some sprs => .ok (dictOf sprs)

/-- pydantic v1 `str_validator`: strings pass; ints — including bools, a
subclass of `int` in python — coerce via `str()`; anything else fails. -/
def strValidator : Json → Except Unit String
  | .str s => .ok s
  | .num n => .ok (toString n)
  | .bool b => .ok (if b then "True" else "False")
  | _ => .error ()

/-- pydantic v1 `bool_validator`: actual bools pass; `0`/`1` and the
recognized true/false words (case-insensitive) coerce; anything else
fails. -/
def boolValidator : Json → Except Unit Bool
  | .bool b => .ok b
  | .num n => if n == 1 then .ok true else if n == 0 then .ok false else .error ()
  | .str s =>
    let l := s.toLower
    if l == "1" || l == "on" || l == "t" || l == "true" || l == "y" || l == "yes" then
      .ok true
    else if l == "0" || l == "off" || l == "f" || l == "false" || l == "n" || l == "no" then
      .ok false
    else .error ()
  | _ => .error ()

/-- Validation of one `ZoneRecord` value: the value must convert to a dict
(`Model.validate` falls back to `dict(value)`); `zone_id` and `record_id`
are mandatory `str` fields (with pydantic v1 coercion), `proxied` an
optional `bool` field defaulting to `False`. -/
def parseZoneRecord (j : Json) : Except Unit ZoneRecord :=
  match modelFields j with
  | .error e => .error e
  | .ok fields =>
    match jlookup "zone_id" fields, jlookup "record_id" fields with
    | some zj, some rj =>
      match strValidator zj, strValidator rj with
      | .ok z, .ok r =>
        match jlookup "proxied" fields with
        | none => .ok { zone_id := z, record_id := r, proxied := false }
        | some pj =>
          match boolValidator pj with
          | .ok b => .ok { zone_id := z, record_id := r, proxied := b }
          | .error e => .error e
      | .error e, _ => .error e
      | _, .error e => .error e
    | _, _ => .error ()

/-- Validation of the `updated_domains` entries: each key is a `str` (with
coercion), each value a `ZoneRecord`.  Pairs are kept as listed; decoded
JSON objects never carry duplicate keys. -/
def parseDomainPairs : List (Json × Json) → Except Unit (List (String × ZoneRecord))
  | [] => .ok []
  | (kj, vj) :: rest =>
    match strValidator kj, parseZoneRecord vj, parseDomainPairs rest with
    | .ok k, .ok zr, .ok tail => .ok ((k, zr) :: tail)
    | .error e, _, _ => .error e
    | _, .error e, _ => .error e
    | _, _, .error e => .error e

/-- Validation of the optional `address` field: missing or `null` means no
address; a string must pass `IPAddress` validation (modelled from the spec,
see `IPAddress`). -/
def parseAddressField (fields : List (String × Json)) : Except Unit (Option IPAddress) :=
  match jlookup "address" fields with
  | none => .ok none
  | some .null => .ok none
  | some (.str s) =>
    if h : validIP s = true then .ok (some ⟨s, h⟩) else .error ()
  | some _ => .error ()

/-- Validation of the optional `updated_domains` field: missing means the
empty dict; a present value goes through `dict_validator`, which falls back
to `dict(value)`, then per-entry validation. -/
def parseDomainsField (fields : List (String × Json)) : Except Unit (List (String × ZoneRecord)) :=
  match jlookup "updated_domains" fields with
  | none => .ok []
  | some j =>
    match asPairs j with
    | .error e => .error e
    | .ok prs => parseDomainPairs prs

/-- Validation of one `IPCache` value: the value must convert to a dict;
both fields are optional with defaults, so the empty string and the empty
array validate to `IPCache()`. -/
def parseIPCache (j : Json) : Except Unit IPCache :=
  match modelFields j with
  | .error e => .error e
  | .ok fields =>
    match parseAddressField fields, parseDomainsField fields with
    | .ok a, .ok ds => .ok { address := a, updated_domains := ds }
    | .error e, _ => .error e
    | _, .error e => .error e

/-- Validation of one family entry of the top-level dict: a missing key
takes the default `IPCache()` (the fields are declared by assignment, so
pydantic v1 treats them as optional with defaults). -/
def parseFamily (fields : List (String × Json)) (key : String) : Except Unit IPCache :=
  match jlookup key fields with
  | none => .ok IPCache.empty
  | some j => parseIPCache j

/-- Validation of the top-level value by `parse_obj`: anything `dict()` can
convert is accepted, so an empty object, the empty string and the empty
array all yield the all-default `Cache`. -/
def parseCache (j : Json) : Except Unit Cache :=
  match modelFields j with
  | .error e => .error e
  | .ok fields =>
    match parseFamily fields "ipv4", parseFamily fields "ipv6" with
    | .ok v4, .ok v6 => .ok { ipv4 := v4, ipv6 := v6 }
    | .error e, _ => .error e
    | _, .error e => .error e

/-- `Cache.parse_raw(cache_json)`: JSON-decode the text, then validate.
Text that is not valid JSON fails like any validation error. -/
def Cache.parse_raw : Content → Except Unit Cache
  | .junk => .error ()
  | .json j => parseCache j

/-- Exceptions that can cross `_load`'s boundary: `InvalidCache`, or any
other exception class. -/
inductive PyError where
  | invalidCache : PyError
  | other : PyError

/-- `CacheManager(cache_path, force=False, *, debug=False)`.  The path is
fixed; the file it names is the `FileState` the operations act on. -/
structure CacheManager where
  force : Bool
  debug : Bool

/-- `CacheManager.delete`: `self._path.unlink(missing_ok=True)` — removes
the file; a missing file is not an error. -/
def CacheManager.delete (_ : CacheManager) (_fs : FileState) : FileState :=
  .absent

/-- `CacheManager._load`: `read_text` then `Cache.parse_raw`;
`except FileNotFoundError` returns `Cache()`, `except Exception` (any other
read failure or any parse failure) raises `InvalidCache`. -/
def CacheManager._load (_ : CacheManager) (fs : FileState) : Except PyError Cache :=
  match readText fs with
  | .error .fileNotFound => .ok Cache.empty
  | .error .ioError => .error .invalidCache
  | .ok cache_json =>
    match Cache.parse_raw cache_json with
    | .ok cache => .ok cache
    | .error _ => .error .invalidCache

/-- `CacheManager.load`: with `force`, return `Cache()` without touching the
file; otherwise run `_load`, and on `InvalidCache` delete the file and
return `Cache()`.  Other exception classes are not caught. -/
def CacheManager.load (m : CacheManager) (fs : FileState) : Except PyError (Cache × FileState) :=
  if m.force then .ok (Cache.empty, fs)
  else
    match m._load fs with
    | .ok cache => .ok (cache, fs)
    | .error .invalidCache => .ok (Cache.empty, m.delete fs)
    | .error .other => .error .other

/-- `CacheManager.save`: `self._path.write_text(cache.json())` — overwrites
the file with the full serialization, whatever was there before. -/
def CacheManager.save (_ : CacheManager) (cache : Cache) (_fs : FileState) : FileState :=
  .present (Cache.json cache)

/-! ## Round-trip lemmas: validation is a left inverse of serialization -/

theorem parseZoneRecord_toJson (zr : ZoneRecord) :
    parseZoneRecord (ZoneRecord.toJson zr) = .ok zr := by
  cases zr
  rfl

theorem parseDomainPairs_toJson (l : List (String × ZoneRecord)) :
    parseDomainPairs (l.map fun p => (Json.str p.1, ZoneRecord.toJson p.2)) = .ok l := by
  induction l with
  | nil => rfl
  | cons p rest ih =>
    simp [parseDomainPairs, strValidator, parseZoneRecord_toJson, ih]

theorem parseIPCache_toJson (ic : IPCache) :
    parseIPCache (IPCache.toJson ic) = .ok ic := by
  cases ic with
  | mk addr doms =>
    cases addr with
    | none =>
      simp [IPCache.toJson, parseIPCache, modelFields, asPairs, strKeys, dictOf,
        dictInsert, parseAddressField, parseDomainsField, jlookup,
        Function.comp_def, parseDomainPairs_toJson]
    | some a =>
      simp [IPCache.toJson, parseIPCache, modelFields, asPairs, strKeys, dictOf,
        dictInsert, parseAddressField, parseDomainsField, jlookup,
        Function.comp_def, parseDomainPairs_toJson, a.property]

theorem parseCache_toJson (c : Cache) :
    parseCache (Cache.toJson c) = .ok c := by
  simp [Cache.toJson, parseCache, modelFields, asPairs, strKeys, dictOf,
    dictInsert, parseFamily, jlookup, parseIPCache_toJson]

/-! ## Claims -/

/-- Claim C1: with `force` unset, if the cache file exists but its content
fails to parse as a `Cache`, `load()` deletes the file and returns a fresh
all-empty `Cache`; afterward the file no longer exists and no exception
reaches the caller. -/
theorem C1_corrupt_file_self_heals (d : Bool) (ct : Content) (e : Unit)
    (h : Cache.parse_raw ct = .error e) :
    (CacheManager.mk false d).load (.present ct) =
      .ok (Cache.empty, FileState.absent) := by
  simp [CacheManager.load, CacheManager._load, readText, h, CacheManager.delete]

/-- Witness for C1 at a concrete corrupted content. -/
theorem C1_corrupt_file_self_heals_witness :
    Cache.parse_raw Content.junk = .error () ∧
      (CacheManager.mk false false).load (.present Content.junk) =
        .ok (Cache.empty, FileState.absent) :=
  ⟨rfl, C1_corrupt_file_self_heals false Content.junk () rfl⟩

/-- Claim C2 counterexample: with `force` unset, a read failure other than
file-not-found (e.g. permission denied, modelled by `FileState.unreadable`)
is NOT propagated: `_load`'s `except Exception` classifies it as
`InvalidCache`, and `load()` recovers by deleting the file and returning a
fresh `Cache`, contrary to the claim. -/
theorem C2_ioError_not_propagated :
    (CacheManager.mk false false).load FileState.unreadable =
        .ok (Cache.empty, FileState.absent) ∧
      (CacheManager.mk false false)._load FileState.unreadable =
        .error PyError.invalidCache :=
  ⟨rfl, rfl⟩

/-- Claim C2 (amended): with `force` unset, a read failure other than
file-not-found is caught by `_load`'s broad `except Exception` and
classified as `InvalidCache` exactly like corruption; `load()` then deletes
the file and returns a fresh all-empty `Cache`, and no error reaches the
caller. -/
theorem C2_ioError_classified_invalid (d : Bool) :
    (CacheManager.mk false d)._load FileState.unreadable =
        .error PyError.invalidCache ∧
      (CacheManager.mk false d).load FileState.unreadable =
        .ok (Cache.empty, FileState.absent) :=
  ⟨rfl, rfl⟩

/-- Claim C3 counterexample: a file whose content is the JSON object `{}` —
both top-level keys `ipv4` and `ipv6` missing — is accepted by
deserialization and yields the all-empty `Cache`, because the pydantic v1
fields `ipv4 = IPCache()` / `ipv6 = IPCache()` carry defaults; the claim
says such a structure must be rejected as corrupted. -/
theorem C3_missing_keys_accepted :
    Cache.parse_raw (Content.json (Json.obj [])) = .ok Cache.empty :=
  rfl

/-- Claim C3 (amended): deserialization during `load()` validates the
persisted shape, but with pydantic v1's leniency rather than failing closed
on any mismatch: the top-level keys `ipv4` and `ipv6` are optional with
all-empty defaults, every position expecting a dict accepts whatever
python's `dict()` can convert (an empty object, the empty string and the
empty array all parse to the all-empty `Cache`, also nested under a family
key), and leaf fields coerce (`int` to `str` for `zone_id`/`record_id`,
`0`/`1` and true/false words to `bool` for `proxied`); only genuinely
unconvertible content is classified corrupted — non-JSON text, `null`,
a number or a non-empty non-pair string at top level, a value under a
present key that `dict()` cannot convert, a missing mandatory `ZoneRecord`
field, or an uncoercible leaf value. -/
theorem C3_lenient_pydantic_validation :
    Cache.parse_raw (Content.json (Json.obj [])) = .ok Cache.empty ∧
      Cache.parse_raw (Content.json (Json.str "")) = .ok Cache.empty ∧
      Cache.parse_raw (Content.json (Json.arr [])) = .ok Cache.empty ∧
      Cache.parse_raw (Content.json (Json.obj [("ipv4", Json.str "")])) =
        .ok Cache.empty ∧
      Cache.parse_raw (Content.json (Json.obj [("ipv4", Json.arr [])])) =
        .ok Cache.empty ∧
      Cache.parse_raw (Content.json (Json.obj [("ipv4", Json.obj
          [("updated_domains", Json.obj [("d", Json.obj
            [("zone_id", Json.num 5), ("record_id", Json.bool true),
             ("proxied", Json.num 1)])])])])) =
        .ok { ipv4 := { address := none, updated_domains :=
                [("d", { zone_id := "5", record_id := "True", proxied := true })] },
              ipv6 := IPCache.empty } ∧
      Cache.parse_raw Content.junk = .error () ∧
      Cache.parse_raw (Content.json Json.null) = .error () ∧
      Cache.parse_raw (Content.json (Json.num 3)) = .error () ∧
      Cache.parse_raw (Content.json (Json.str "not a cache")) = .error () ∧
      Cache.parse_raw (Content.json (Json.obj [("ipv4", Json.num 3)])) =
        .error () ∧
      Cache.parse_raw (Content.json (Json.obj [("ipv4", Json.obj
          [("updated_domains", Json.obj [("d", Json.obj
            [("record_id", Json.str "r")])])])])) = .error () ∧
      Cache.parse_raw (Content.json (Json.obj [("ipv4", Json.obj
          [("updated_domains", Json.obj [("d", Json.obj
            [("zone_id", Json.str "z"), ("record_id", Json.str "r"),
             ("proxied", Json.num 5)])])])])) = .error () :=
  ⟨rfl, rfl, rfl, rfl, rfl, rfl, rfl, rfl, rfl, rfl, rfl, rfl, rfl⟩

/-- Claim C4: with `force` unset and no existing file, `load()` returns a
fresh all-empty `Cache`, raises nothing, and does not create the file. -/
theorem C4_missing_file_tolerated (d : Bool) :
    (CacheManager.mk false d).load FileState.absent =
      .ok (Cache.empty, FileState.absent) :=
  rfl

/-- Claim C5: with `force` unset, `save(c)` followed by `load()` on the same
path yields exactly `c` (field-for-field, both families' addresses and
domain maps with all `ZoneRecord` fields), and leaves the saved file in
place. -/
theorem C5_save_then_load_roundtrip (d : Bool) (c : Cache) (fs : FileState) :
    (CacheManager.mk false d).load ((CacheManager.mk false d).save c fs) =
      .ok (c, (CacheManager.mk false d).save c fs) := by
  simp [CacheManager.load, CacheManager.save, CacheManager._load, readText,
    Cache.json, Cache.parse_raw, parseCache_toJson]

/-- Claim C6: with `force` set, `load()` returns a fresh all-empty `Cache`
without reading the file; the file state is returned unchanged whatever it
contains. -/
theorem C6_force_skips_read (d : Bool) (fs : FileState) :
    (CacheManager.mk true d).load fs = .ok (Cache.empty, fs) :=
  rfl

/-- Claim C7: `delete()` removes the file when present and is a no-op
without error when absent; in every case the file does not exist
afterwards. -/
theorem C7_delete_removes_file (m : CacheManager) (fs : FileState) :
    m.delete fs = FileState.absent :=
  rfl

/-- Claim C8: `save(cache)` overwrites the file with exactly the full
serialization of `cache`, independently of the previous file content. -/
theorem C8_save_overwrites_fully (m : CacheManager) (c : Cache) (fs : FileState) :
    m.save c fs = FileState.present (Cache.json c) :=
  rfl

/-- Claim C9: `clear()` resets both fields of an `IPCache` together:
afterwards `address` is `None` and `updated_domains` is the empty map. -/
theorem C9_clear_resets_both_fields (ic : IPCache) :
    ic.clear.address = none ∧ ic.clear.updated_domains = [] :=
  ⟨rfl, rfl⟩

/-- Claim C10: every `Cache` that `load()` returns without successfully
parsing an existing file — `force` set, file absent, or file unparseable
(then deleted) — is the all-empty `Cache` (`address = None` and empty
`updated_domains` in both families); and a `ZoneRecord` parsed without a
`proxied` field defaults `proxied` to `False`. -/
theorem C10_defaults_all_empty :
    (∀ (d : Bool) (fs : FileState),
        (CacheManager.mk true d).load fs = .ok (Cache.empty, fs)) ∧
      (∀ d : Bool,
        (CacheManager.mk false d).load FileState.absent =
          .ok (Cache.empty, FileState.absent)) ∧
      (∀ (d : Bool) (ct : Content) (e : Unit),
        Cache.parse_raw ct = .error e →
          (CacheManager.mk false d).load (.present ct) =
            .ok (Cache.empty, FileState.absent)) ∧
      (Cache.empty.ipv4.address = none ∧ Cache.empty.ipv6.address = none ∧
        Cache.empty.ipv4.updated_domains = [] ∧
        Cache.empty.ipv6.updated_domains = []) ∧
      (∀ z r : String,
        parseZoneRecord (Json.obj [("zone_id", .str z), ("record_id", .str r)]) =
          .ok { zone_id := z, record_id := r, proxied := false }) := by
  refine ⟨fun d fs => rfl, fun d => rfl, fun d ct e h => ?_,
    ⟨rfl, rfl, rfl, rfl⟩, fun z r => rfl⟩
  simp [CacheManager.load, CacheManager._load, readText, h, CacheManager.delete]

/-- Witness for C10: the unparseable-file conjunct at concrete junk
content. -/
theorem C10_defaults_all_empty_witness :
    (CacheManager.mk false false).load (.present Content.junk) =
      .ok (Cache.empty, FileState.absent) :=
  C10_defaults_all_empty.2.2.1 false Content.junk () rfl
